import Mathlib

/-!
Shallow embedding of the climex repository (src/climex/climex.py and
src/climex/load_data.py): a NASA POWER bulk download pipeline
(request planner, fetch worker, worker pool, result reducer) and a
CSV centroid-loading utility.

Modelling conventions:
* Scalar cell values (latitudes, identifiers, CSV cells) are `String`s:
  the pipeline only interpolates them into URLs and columns, never
  computes with them.
* JSON documents are the inductive `Json` below; Python dictionary
  membership and subscription (the `in` operator, `d[k]`) are modelled
  with their Python semantics including the `TypeError` cases, since
  `download_function` wraps everything in `try/except`.
* The fragment of `pandas.DataFrame` the worker exercises is modelled
  column-oriented (`ColFrame`); written CSV files are row-oriented
  (`DataFrame`).  `pd.DataFrame(dict_of_dicts)` is modelled for the
  dict-of-dicts shape the NASA response has; every other JSON shape is
  modelled as a constructor error (pandas raises on scalars and strings;
  exotic mixed shapes are outside the modelled fragment and also mapped
  to an error).
* Exception messages are abbreviated: no claim depends on message text,
  only on which exceptions occur and where they are caught.
* Side effects (mkdir, pool creation, HTTP GET, file write) are recorded
  in an explicit effect trace; the network is an oracle mapping each
  planned row index to its HTTP result; the filesystem at consolidation
  time is the initial filesystem overlaid with the worker writes.
* `pool.imap_unordered` yields results in a nondeterministic order; the
  model fixes one linearization (job order).  Every claim proved below
  is insensitive to outcome order (counts, per-outcome fields, row-set
  sizes), so the linearization loses no generality for these claims.
-/

namespace Climex

/-- JSON values as returned by `response.json()`. -/
inductive Json where
  | null : Json
  | bool (b : Bool) : Json
  | num (n : Int) : Json
  | str (s : String) : Json
  | arr (elems : List Json) : Json
  | obj (fields : List (String × Json)) : Json

/-- Membership test of Python, `k in j`, for a string key `k`:
keys of a dict, elements of a list, substring of a string; everything
else raises `TypeError` (not iterable). -/
def pyContains (j : Json) (k : String) : Except String Bool :=
  match j with
  | .obj fields => .ok (fields.any (fun kv => kv.1 = k))
  | .arr elems => .ok (elems.any (fun e => match e with | .str s => s = k | _ => false))
  | .str s => .ok ((s.splitOn k).length > 1)
  | _ => .error "TypeError: argument is not iterable"

/-- Subscription of Python, `j[k]`, for a string key `k`: dict lookup
(`KeyError` when absent); lists and strings demand integer indices;
everything else is not subscriptable. -/
def pyGetItem (j : Json) (k : String) : Except String Json :=
  match j with
  | .obj fields =>
      match fields.find? (fun kv => kv.1 = k) with
      | some kv => .ok kv.2
      | none => .error "KeyError"
  | .arr _ => .error "TypeError: list indices must be integers"
  | .str _ => .error "TypeError: string indices must be integers"
  | _ => .error "TypeError: object is not subscriptable"

/-- Day count of a month in the Gregorian calendar. -/
def daysInMonth (y m : Nat) : Nat :=
  if m = 2 then
    if y % 4 = 0 ∧ (y % 100 ≠ 0 ∨ y % 400 = 0) then 29 else 28
  else if m = 4 ∨ m = 6 ∨ m = 9 ∨ m = 11 then 30
  else 31

/-- Parse a compact `YYYYMMDD` date, the semantics of
`pd.to_datetime(x, format=%Y%m%d)` on one key: exactly eight digits
forming a valid calendar date. -/
def parseCompactDate (s : String) : Option (Nat × Nat × Nat) :=
  if s.length = 8 ∧ s.all Char.isDigit then
    let y := (s.take 4).toNat!
    let m := (s.drop 4 |>.take 2).toNat!
    let d := (s.drop 6).toNat!
    if 1 ≤ m ∧ m ≤ 12 ∧ 1 ≤ d ∧ d ≤ daysInMonth y m then some (y, m, d)
    else none
  else none

/-- Pad a numeral with zeros to width `w`. -/
def padNum (w n : Nat) : String :=
  let s := toString n
  String.mk (List.replicate (w - s.length) '0') ++ s

/-- Render a parsed date the way `pandas.to_csv` renders a midnight
`datetime64` value: ISO `YYYY-MM-DD`. -/
def isoOfDate : Nat × Nat × Nat → String
  | (y, m, d) => padNum 4 y ++ "-" ++ padNum 2 m ++ "-" ++ padNum 2 d

/-- The fragment of the flexible `pd.to_datetime` parser the planner
uses on start/end date cells: accepts compact `YYYYMMDD` and dashed
`YYYY-MM-DD`; anything else raises (modelled as `none`). -/
def pdToDatetime (s : String) : Option (Nat × Nat × Nat) :=
  match parseCompactDate s with
  | some d => some d
  | none =>
      match s.splitOn "-" with
      | [ys, ms, ds] =>
          if ys.length = 4 ∧ ms.length = 2 ∧ ds.length = 2 then
            parseCompactDate (ys ++ ms ++ ds)
          else none
      | _ => none

/-- Compact `strftime(%Y%m%d)` rendering of a parsed date. -/
def compactOfDate : Nat × Nat × Nat → String
  | (y, m, d) => padNum 4 y ++ padNum 2 m ++ padNum 2 d

/-- Render a scalar JSON value into a CSV cell the way pandas writes it
(`NaN` becomes the empty cell).  Container cells are outside the
modelled fragment and get a fixed placeholder; no claim depends on
their rendering. -/
def renderJson : Json → String
  | .null => ""
  | .bool b => if b then "True" else "False"
  | .num n => toString n
  | .str s => s
  | _ => "<json>"

/-- A column-oriented pandas DataFrame with a string index, as built by
`pd.DataFrame(dict_of_dicts)`: the index holds the period keys, each
column is aligned with the index. -/
structure ColFrame where
  idx : List String
  cols : List (String × List String)
deriving Repr, DecidableEq

/-- Emptiness test `df.empty`: true when either axis has length zero. -/
def ColFrame.isEmpty (f : ColFrame) : Bool :=
  f.idx.isEmpty || f.cols.isEmpty

/-- Scalar assignment `df[name] = scalar`: broadcast; overwrites an
existing column in place, otherwise appends a new column at the end. -/
def ColFrame.setConst (f : ColFrame) (name v : String) : ColFrame :=
  if f.cols.any (fun c => c.1 = name) then
    { f with cols := f.cols.map (fun c =>
        if c.1 = name then (c.1, List.replicate f.idx.length v) else c) }
  else
    { f with cols := f.cols ++ [(name, List.replicate f.idx.length v)] }

/-- Vector assignment `df[name] = values`: per-row values, same
overwrite-or-append rule as the scalar case. -/
def ColFrame.setVec (f : ColFrame) (name : String) (vs : List String) : ColFrame :=
  if f.cols.any (fun c => c.1 = name) then
    { f with cols := f.cols.map (fun c => if c.1 = name then (c.1, vs) else c) }
  else
    { f with cols := f.cols ++ [(name, vs)] }

/-- Column names in order. -/
def ColFrame.names (f : ColFrame) : List String :=
  f.cols.map Prod.fst

/-- Column selection `df[names]`: reindex the columns by name, in the
given order. -/
def ColFrame.selectCols (f : ColFrame) (names : List String) : ColFrame :=
  { f with cols := names.filterMap (fun n => (f.cols.find? (fun c => c.1 = n)).map (fun c => (n, c.2))) }

/-- A row-oriented table: the shape of a written CSV file
(`to_csv(index=False)`) and of the consolidated result. -/
structure DataFrame where
  header : List String
  rows : List (List String)
deriving Repr, DecidableEq

/-- The empty frame `pd.DataFrame()`. -/
def emptyFrame : DataFrame := ⟨[], []⟩

/-- Transpose a column-oriented frame into the rows `to_csv` writes
(one row per index key, cells in column order). -/
def ColFrame.toCsv (f : ColFrame) : DataFrame :=
  { header := f.names
    rows := (List.range f.idx.length).map (fun i =>
      f.cols.map (fun c => c.2.getD i "")) }

/-- Union of period keys across all variables, in order of first
appearance, as `pd.DataFrame(dict_of_dicts)` aligns the index. -/
def unionKeys (params : List (String × Json)) : List String :=
  params.foldl (fun acc kv =>
    match kv.2 with
    | .obj inner => acc ++ (inner.map Prod.fst).filter (fun k => ¬ k ∈ acc)
    | _ => acc) []

/-- Conversion `pd.DataFrame(climate_params)` on the modelled dict-of-dicts
fragment: outer keys become columns, the union of inner keys becomes
the index, missing cells become `NaN` (empty).  A scalar or string
argument raises (`DataFrame constructor not properly called`); a dict
whose values are not all dicts is outside the modelled fragment and is
also mapped to a constructor error.  The cell of one variable column at
period key `k` is the value its inner mapping holds there, `NaN`
(empty) when the key is missing. -/
def cellOfParam (kv : String × Json) (k : String) : String :=
  match kv.2 with
  | .obj inner =>
      match inner.find? (fun e => e.1 = k) with
      | some e => renderJson e.2
      | none => ""
  | _ => ""

/-- Frame construction from the parsed `properties.parameter` value,
per the modelled fragment described above. -/
def dataFrameOfJson (j : Json) : Except String ColFrame :=
  match j with
  | .obj params =>
      if params.all (fun kv => match kv.2 with | .obj _ => true | _ => false) then
        .ok { idx := unionKeys params
              cols := params.map (fun kv =>
                (kv.1, (unionKeys params).map (cellOfParam kv))) }
      else .error "ValueError: DataFrame constructor argument"
  | _ => .error "ValueError: DataFrame constructor not properly called"

/-- The metadata record the planner attaches to each job
(`row_info` in the source). -/
structure RowInfo where
  index : Nat
  latitude : String
  longitude : String
  start_date : Option String
  end_date : Option String
  identifier : String
  filename : String
deriving Repr, DecidableEq

/-- The terminal record a worker produces for one job. -/
structure Outcome where
  info : RowInfo
  success : Bool
  error : Option String
deriving Repr, DecidableEq

/-- The result of the HTTP GET inside the worker: either a raised
client exception (network error, timeout, non-JSON body) or a parsed
JSON document. -/
inductive HttpResult where
  | failure (msg : String) : HttpResult
  | ok (body : Json) : HttpResult

/-- A planned fetch job: URL, destination path, metadata. -/
structure FetchJob where
  url : String
  filepath : String
  info : RowInfo
deriving Repr, DecidableEq

/-- Metadata attachment (climex.py lines 26-28): broadcast the job's
latitude, longitude and identifier as constant columns. -/
def attachMeta (df : ColFrame) (info : RowInfo) : ColFrame :=
  ((df.setConst "latitude" info.latitude).setConst
      "longitude" info.longitude).setConst "identifier" info.identifier

/-- Date-or-period step (climex.py lines 31-35): on an unnamed,
non-empty index, add a `date` column when every key parses as a compact
`YYYYMMDD` date, otherwise a `period` column holding the raw keys. -/
def addDateOrPeriod (df : ColFrame) : ColFrame :=
  if df.idx.length > 0 then
    if df.idx.all (fun k => (parseCompactDate k).isSome) then
      df.setVec "date" (df.idx.map (fun k =>
        isoOfDate ((parseCompactDate k).getD (0, 0, 0))))
    else
      df.setVec "period" df.idx
  else df

/-- Base column list of the reorder step (climex.py lines 38-42):
metadata columns, then whichever of `date`/`period` is present. -/
def baseColsOf (df : ColFrame) : List String :=
  ["identifier", "latitude", "longitude"]
    ++ (if "date" ∈ df.names then ["date"] else [])
    ++ (if "period" ∈ df.names then ["period"] else [])

/-- Reorder step (climex.py lines 37-45): the base columns first, then
the remaining columns in their existing order. -/
def reorderCols (df : ColFrame) : ColFrame :=
  df.selectCols (baseColsOf df
    ++ df.names.filter (fun c => ¬ c ∈ baseColsOf df))

/-- The body of `download_function` after a successful JSON parse:
the membership test, the DataFrame conversion, metadata columns,
date-or-period column, reorder and write.  Returns the written file
(path and contents) when one is written; any `.error` propagates to the
worker's `except` clause. -/
def processResponse (body : Json) (filepath : String) (info : RowInfo) :
    Except String (Option (String × DataFrame)) := do
  let hasProps ← pyContains body "properties"
  let cond ← if hasProps then do
      let props ← pyGetItem body "properties"
      pyContains props "parameter"
    else pure false
  if cond then
    let props ← pyGetItem body "properties"
    let climate_params ← pyGetItem props "parameter"
    let df ← dataFrameOfJson climate_params
    if ¬ df.isEmpty then
      return some (filepath, (reorderCols (addDateOrPeriod (attachMeta df info))).toCsv)
    else
      return none
  else
    return none

/-- Worker `download_function`: executes one job given the HTTP result.
Every exception inside the `try` block is caught and converted into a
failed outcome; the second component is the file written, if any. -/
def download_function (job : FetchJob) (resp : HttpResult) :
    Outcome × Option (String × DataFrame) :=
  match resp with
  | .failure msg => (⟨job.info, false, some msg⟩, none)
  | .ok body =>
      match processResponse body job.filepath job.info with
      | .error msg => (⟨job.info, false, some msg⟩, none)
      | .ok written => (⟨job.info, true, none⟩, written)

/-- The input location table: a pandas DataFrame with its default
`RangeIndex`, so `iterrows` yields `(rowNumber, row)`.  Cells are the
string renderings the pipeline interpolates into URLs and metadata. -/
structure InTable where
  cols : List String
  rows : List (List String)
deriving Repr, DecidableEq

/-- Cell access `row[c]`: the cell of `row` under column `c` (rows are
aligned with the column list; absent columns are never read after
validation). -/
def getCell (cols : List String) (row : List String) (c : String) : String :=
  match cols.findIdx? (fun x => x = c) with
  | some i => row.getD i ""
  | none => ""

/-- The keyword arguments of `download_nasa_power_data`. -/
structure Config where
  lat_col : String
  lon_col : String
  start_date : String
  end_date : String
  parameters : List String
  temporal_resolution : String
  spatial_resolution : String
  community : String
  processes : Int
  output_folder : String
  start_col : Option String
  end_col : Option String
  id_col : Option String
  return_consolidated : Bool
deriving Repr, DecidableEq

/-- Observable side effects of one call, in program order.  Console
output and wall-clock timing are not modelled. -/
inductive Effect where
  | mkdir (path : String) : Effect
  | pool (n : Int) : Effect
  | httpGet (url : String) : Effect
  | writeFile (path : String) : Effect
deriving Repr, DecidableEq

/-- The validation block (climex.py lines 117-135), in source order;
returns the message of the first failing check.  The Python code raises
`ValueError`; the spec calls this class of failures
`ConfigurationError`. -/
def validateConfig (df : InTable) (cfg : Config) : Option String :=
  if ¬ (cfg.lat_col ∈ df.cols ∧ cfg.lon_col ∈ df.cols) then
    some "DataFrame debe contener columnas de latitud y longitud"
  else if cfg.parameters.isEmpty then
    some "Debe especificar al menos un parametro"
  else if ¬ cfg.temporal_resolution ∈ ["daily", "monthly", "climatology"] then
    some "Resolucion temporal invalida"
  else if ¬ cfg.spatial_resolution ∈ ["point", "regional"] then
    some "Resolucion espacial invalida"
  else if ¬ cfg.community ∈ ["RE", "AG", "SB"] then
    some "Comunidad invalida"
  else none

/-- The request-URL template, instantiated per row (climex.py lines
140-198): climatology URLs carry no start/end query parameters. -/
def buildRequestUrl (cfg : Config) (latitude longitude s e : String) : String :=
  let params_str := String.intercalate "," cfg.parameters
  if cfg.temporal_resolution = "climatology" then
    "https://power.larc.nasa.gov/api/temporal/climatology/" ++ cfg.spatial_resolution
      ++ "?parameters=" ++ params_str ++ "&community=" ++ cfg.community
      ++ "&longitude=" ++ longitude ++ "&latitude=" ++ latitude ++ "&format=JSON"
  else
    "https://power.larc.nasa.gov/api/temporal/" ++ cfg.temporal_resolution
      ++ "/" ++ cfg.spatial_resolution
      ++ "?parameters=" ++ params_str ++ "&community=" ++ cfg.community
      ++ "&longitude=" ++ longitude ++ "&latitude=" ++ latitude
      ++ "&start=" ++ s ++ "&end=" ++ e ++ "&format=JSON"

/-- Path join `os.path.join(output_folder, filename)` for a folder
without a trailing separator. -/
def pathJoin (folder filename : String) : String := folder ++ "/" ++ filename

/-- Resolve one row's start (or end) date: if the configured column is
truthy (Python: non-None and non-empty) and present in the table, parse
the cell with `pd.to_datetime` (raising on unparseable values) and
reformat compactly; otherwise fall back to the global default. -/
def resolveDate (df : InTable) (col : Option String) (fallback : String)
    (row : List String) : Except String String :=
  match col with
  | some c =>
      if c ≠ "" ∧ c ∈ df.cols then
        match pdToDatetime (getCell df.cols row c) with
        | some d => .ok (compactOfDate d)
        | none => .error "ValueError: could not parse date"
      else .ok fallback
  | none => .ok fallback

/-- Plan one fetch job from row number `idx` (climex.py lines 169-217).
Date resolution happens for every row, also under `climatology` (whose
metadata then records null dates). -/
def planRow (df : InTable) (cfg : Config) (idx : Nat) (row : List String) :
    Except String FetchJob := do
  let latitude := getCell df.cols row cfg.lat_col
  let longitude := getCell df.cols row cfg.lon_col
  let s ← resolveDate df cfg.start_col cfg.start_date row
  let e ← resolveDate df cfg.end_col cfg.end_date row
  let url := buildRequestUrl cfg latitude longitude s e
  let identifier :=
    match cfg.id_col with
    | some c => if c ≠ "" ∧ c ∈ df.cols then getCell df.cols row c
                else "idx_" ++ toString idx
    | none => "idx_" ++ toString idx
  let filename := identifier ++ ".csv"
  let climatology := cfg.temporal_resolution = "climatology"
  return { url := url
           filepath := pathJoin cfg.output_folder filename
           info := { index := idx
                     latitude := latitude
                     longitude := longitude
                     start_date := if climatology then none else some s
                     end_date := if climatology then none else some e
                     identifier := identifier
                     filename := filename } }

/-- The planning loop over `df.iterrows()`: one job per row, in row
order; the first unparseable date cell raises out of the loop. -/
def planJobsFrom (df : InTable) (cfg : Config) :
    Nat → List (List String) → Except String (List FetchJob)
  | _, [] => .ok []
  | i, r :: rs =>
      match planRow df cfg i r with
      | .error m => .error m
      | .ok j =>
          match planJobsFrom df cfg (i + 1) rs with
          | .error m => .error m
          | .ok js => .ok (j :: js)

/-- All planned jobs of a call. -/
def planJobs (df : InTable) (cfg : Config) : Except String (List FetchJob) :=
  planJobsFrom df cfg 0 df.rows

/-- The filesystem visible to consolidation: newest entry first; a
path maps to the `pd.read_csv` result at that path (an exception or a
parsed table). -/
abbrev FileSys := List (String × Except String DataFrame)

/-- Read-back `pd.read_csv(filepath)` over the modelled filesystem: a
missing path raises `FileNotFoundError`. -/
def readCsv (fs : FileSys) (path : String) : Except String DataFrame :=
  match fs.find? (fun e => e.1 = path) with
  | some e => e.2
  | none => .error "FileNotFoundError"

/-- Emptiness test `df.empty` for a row-oriented table. -/
def DataFrame.isEmpty (t : DataFrame) : Bool :=
  t.rows.isEmpty || t.header.isEmpty

/-- Concatenation `pd.concat(all_data, ignore_index=True)`: the header is the union
of headers in order of first appearance; every row is re-aligned to it,
with empty cells where a table lacks a column. -/
def concatFrames (ts : List DataFrame) : DataFrame :=
  let header := ts.foldl (fun acc t => acc ++ t.header.filter (fun c => ¬ c ∈ acc)) []
  { header := header
    rows := (ts.map (fun t =>
      t.rows.map (fun r => header.map (fun c => getCell t.header r c)))).flatten }

/-- The Summary Table: one row per outcome, the outcome fields
flattened (climex.py lines 227-237).  The wall-clock `downloaded_at`
cell is modelled as a constant. -/
def summaryFrame (outcomes : List Outcome) : DataFrame :=
  { header := ["index", "latitude", "longitude", "start_date", "end_date",
               "identifier", "filename", "success", "error", "downloaded_at"]
    rows := outcomes.map (fun o =>
      [toString o.info.index, o.info.latitude, o.info.longitude,
       o.info.start_date.getD "", o.info.end_date.getD "",
       o.info.identifier, o.info.filename,
       if o.success then "True" else "False",
       o.error.getD "", "downloaded_at"]) }

/-- The tables the consolidation loop collects into `all_data`: for
each successful outcome, the destination file read back, kept when the
read raised no exception and the table is non-empty. -/
def readableTables (outcomes : List Outcome) (output_folder : String)
    (fs : FileSys) : List DataFrame :=
  (outcomes.filter (fun o => o.success)).filterMap (fun o =>
    match readCsv fs (pathJoin output_folder o.info.filename) with
    | .error _ => none
    | .ok t => if ¬ t.isEmpty then some t else none)

/-- Consolidator `_consolidate_csv_data`: over the successful outcomes, read each
destination file back; unreadable files are skipped (a diagnostic is
printed), empty tables are skipped; the readable non-empty tables are
concatenated, and with none of them the empty frame is returned. -/
def _consolidate_csv_data (outcomes : List Outcome) (output_folder : String)
    (fs : FileSys) : DataFrame :=
  let all_data := readableTables outcomes output_folder fs
  if ¬ all_data.isEmpty then concatFrames all_data else emptyFrame

/-- The result dispatch (climex.py lines 250-255): consolidate exactly
when requested and at least one outcome succeeded, otherwise return the
summary table. -/
def reduceResults (outcomes : List Outcome) (output_folder : String)
    (fs : FileSys) (return_consolidated : Bool) : DataFrame :=
  if return_consolidated ∧ outcomes.any (fun o => o.success) then
    _consolidate_csv_data outcomes output_folder fs
  else summaryFrame outcomes

/-- The worker-pool fan-out `pool.imap_unordered(download_function,
requests)`: one worker execution per job, against the network oracle.
The model fixes the job-order linearization of the unordered yield. -/
def runPool (jobs : List FetchJob) (responses : Nat → HttpResult) :
    List (Outcome × Option (String × DataFrame)) :=
  jobs.map (fun j => download_function j (responses j.info.index))

/-- Raised errors of the whole call: the validation failures the spec
names `ConfigurationError`, and every other uncaught exception. -/
inductive PipeError where
  | config (msg : String) : PipeError
  | runtime (msg : String) : PipeError
deriving Repr, DecidableEq

/-- Pipeline `download_nasa_power_data`: validate, create the output folder,
plan one job per row, run the bounded pool (`min(processes, 5)`
workers; `multiprocessing.Pool` raises below 1), collect one outcome
per job, then reduce.  `responses` is the network oracle (HTTP result
per planned row number); `fs0` is the filesystem before the call; the
effect trace records the side effects performed.  With zero planned
jobs the results frame has no columns and the summary access
`results_df[success]` raises `KeyError` (climex.py line 243). -/
def download_nasa_power_data (df : InTable) (cfg : Config)
    (responses : Nat → HttpResult) (fs0 : FileSys) :
    List Effect × Except PipeError DataFrame :=
  match validateConfig df cfg with
  | some msg => ([], .error (.config msg))
  | none =>
      let processes := min cfg.processes 5
      let effs0 := [Effect.mkdir cfg.output_folder]
      match planJobs df cfg with
      | .error msg => (effs0, .error (.runtime msg))
      | .ok jobs =>
          if processes < 1 then
            (effs0, .error (.runtime "ValueError: Number of processes must be at least 1"))
          else
            let results := runPool jobs responses
            let outcomes := results.map Prod.fst
            let writes := results.filterMap Prod.snd
            let effs := effs0 ++ [Effect.pool processes]
              ++ jobs.map (fun j => Effect.httpGet j.url)
              ++ writes.map (fun w => Effect.writeFile w.1)
            let fs1 := writes.foldl (fun fs w => (w.1, Except.ok w.2) :: fs) fs0
            if outcomes.isEmpty then
              (effs, .error (.runtime "KeyError: success"))
            else
              (effs, .ok (reduceResults outcomes cfg.output_folder fs1
                            cfg.return_consolidated))

/-- A CSV table as `pd.read_csv` loads it for `load_centroid_data`:
cells are `none` at missing values (`NaN`), which compare unequal to
every string. -/
structure CsvTable where
  cols : List String
  rows : List (List (Option String))
deriving Repr, DecidableEq

/-- Cell lookup by column name; `none` when the column is absent. -/
def getCellOpt (cols : List String) (row : List (Option String)) (c : String) :
    Option String :=
  match cols.findIdx? (fun x => x = c) with
  | some i => row.getD i none
  | none => none

/-- Column assignment `df[name] = values`: overwrite an existing
column in place, else append it. -/
def CsvTable.setCol (df : CsvTable) (name : String)
    (vals : List (Option String)) : CsvTable :=
  match df.cols.findIdx? (fun c => c = name) with
  | some i => { df with rows := df.rows.zipWith (fun r v => r.set i v) vals }
  | none => { cols := df.cols ++ [name]
              rows := df.rows.zipWith (fun r v => r ++ [v]) vals }

/-- Column removal `df.drop(columns=[name])` (first occurrence). -/
def CsvTable.dropCol (df : CsvTable) (name : String) : CsvTable :=
  match df.cols.findIdx? (fun c => c = name) with
  | some i => { cols := df.cols.eraseIdx i
                rows := df.rows.map (fun r => r.eraseIdx i) }
  | none => df

/-- Derived state codes: the last three characters of each row's
`CVEGEO` cell (`.str[-3:]`, which keeps shorter strings whole and maps
`NaN` to `NaN`). -/
def derivedEdo (df : CsvTable) : List (Option String) :=
  df.rows.map (fun r =>
    (getCellOpt df.cols r "CVEGEO").map (fun s => s.takeRight 3))

/-- Utility `load_centroid_data` (load_data.py): store the derived
state code in the `edo` column, keep the rows whose `edo` equals
`state`, and drop `edo`.  A table without a `CVEGEO` column raises
`KeyError`. -/
def load_centroid_data (df : CsvTable) (state : String) :
    Except String CsvTable :=
  if "CVEGEO" ∈ df.cols then
    .ok (CsvTable.dropCol
      { cols := (df.setCol "edo" (derivedEdo df)).cols
        rows := (df.setCol "edo" (derivedEdo df)).rows.filter (fun r =>
          getCellOpt (df.setCol "edo" (derivedEdo df)).cols r "edo" = some state) }
      "edo")
  else .error "KeyError: CVEGEO"

/-- Discriminator for the raised-error class: true exactly on the
validation (`ConfigurationError`) class. -/
def PipeError.isConfig : PipeError → Bool
  | .config _ => true
  | .runtime _ => false

/-- Observation on a call result: true when the call raised an error
outside the `ConfigurationError` class. -/
def raisedNonConfig (r : Except PipeError DataFrame) : Bool :=
  match r with
  | .error e => ¬ e.isConfig
  | .ok _ => false

/-- The column names `download_function` itself introduces; a provider
response whose variables collide with them is outside the NASA POWER
parameter namespace. -/
def reservedCols : List String :=
  ["identifier", "latitude", "longitude", "date", "period"]

/-- A provider response of the documented shape, with the given
variable-to-periods mapping at `properties.parameter`. -/
def nasaResponse (params : List (String × Json)) : Json :=
  Json.obj [("properties", Json.obj [("parameter", Json.obj params)])]

/-- A two-row location table used to instantiate the theorems. -/
def sampleTable : InTable :=
  ⟨["latitude", "longitude"], [["19.4", "-99.1"], ["20.7", "-103.4"]]⟩

/-- A location table with the mandatory columns and zero rows. -/
def emptyLocTable : InTable := ⟨["latitude", "longitude"], []⟩

/-- The default keyword arguments of `download_nasa_power_data`,
restricted to one parameter. -/
def sampleConfig : Config :=
  { lat_col := "latitude", lon_col := "longitude",
    start_date := "20150101", end_date := "20150305",
    parameters := ["T2M"], temporal_resolution := "daily",
    spatial_resolution := "point", community := "RE", processes := 5,
    output_folder := "./nasa_power_data",
    start_col := none, end_col := none, id_col := none,
    return_consolidated := true }

/-- An invalid configuration: the community is outside its enum. -/
def badCommunityConfig : Config := { sampleConfig with community := "XX" }

/-- A configuration requesting twelve concurrent processes. -/
def twelveProcConfig : Config := { sampleConfig with processes := 12 }

/-- A network oracle answering every row with a one-variable,
one-period document of the documented shape. -/
def sampleResponses : Nat → HttpResult := fun _ =>
  .ok (nasaResponse [("T2M", Json.obj [("20150101", Json.num 25)])])

/-- The jobs the planner produces on `sampleTable` and
`sampleConfig`. -/
def sampleJobs : List FetchJob :=
  [{ url := "https://power.larc.nasa.gov/api/temporal/daily/point?parameters=T2M&community=RE&longitude=-99.1&latitude=19.4&start=20150101&end=20150305&format=JSON"
     filepath := "./nasa_power_data/idx_0.csv"
     info := { index := 0, latitude := "19.4", longitude := "-99.1",
               start_date := some "20150101", end_date := some "20150305",
               identifier := "idx_0", filename := "idx_0.csv" } },
   { url := "https://power.larc.nasa.gov/api/temporal/daily/point?parameters=T2M&community=RE&longitude=-103.4&latitude=20.7&start=20150101&end=20150305&format=JSON"
     filepath := "./nasa_power_data/idx_1.csv"
     info := { index := 1, latitude := "20.7", longitude := "-103.4",
               start_date := some "20150101", end_date := some "20150305",
               identifier := "idx_1", filename := "idx_1.csv" } }]

/-- One planned job used to exercise the worker on its own. -/
def sampleJob : FetchJob :=
  { url := "https://power.larc.nasa.gov/api/temporal/daily/point?parameters=T2M&community=RE&longitude=-99.1&latitude=19.4&start=20150101&end=20150305&format=JSON"
    filepath := "./nasa_power_data/idx_0.csv"
    info := { index := 0, latitude := "19.4", longitude := "-99.1",
              start_date := some "20150101", end_date := some "20150305",
              identifier := "idx_0", filename := "idx_0.csv" } }

/-- A document that parses as JSON and carries `properties.parameter`,
but with a string, not a mapping, at that path. -/
def strParamResponse : Json :=
  Json.obj [("properties", Json.obj [("parameter", Json.str "hello")])]

/-- A document whose top-level object lacks the `properties` key. -/
def noPropsResponse : Json :=
  Json.obj [("messages", Json.str "no data")]

/-- A one-success, one-failure outcome pair used to instantiate the
reducer theorems. -/
def sampleOutcomes : List Outcome :=
  [{ info := { index := 0, latitude := "19.4", longitude := "-99.1",
               start_date := some "20150101", end_date := some "20150305",
               identifier := "idx_0", filename := "idx_0.csv" },
     success := true, error := none },
   { info := { index := 1, latitude := "20.7", longitude := "-103.4",
               start_date := some "20150101", end_date := some "20150305",
               identifier := "idx_1", filename := "idx_1.csv" },
     success := false, error := some "timeout" }]

/-- A filesystem holding one readable two-row file for the successful
outcome of `sampleOutcomes`. -/
def sampleFs : FileSys :=
  [("./nasa_power_data/idx_0.csv",
    Except.ok { header := ["identifier", "latitude", "longitude", "date", "T2M"]
                rows := [["idx_0", "19.4", "-99.1", "2015-01-01", "25"],
                         ["idx_0", "19.4", "-99.1", "2015-01-02", "26"]] })]

/-- A centroid CSV with three rows and two columns, one CVEGEO
suffix-matching state 005. -/
def sampleCsv : CsvTable :=
  { cols := ["CVEGEO", "name"]
    rows := [[some "01001005", some "a"],
             [some "01002007", some "b"],
             [some "02003005", some "c"]] }

/-- A centroid CSV that already carries an `edo` column. -/
def sampleCsvWithEdo : CsvTable :=
  { cols := ["CVEGEO", "edo", "name"]
    rows := [[some "01001005", some "keepme", some "a"],
             [some "01002007", some "old", some "b"]] }

/-- A one-variable, two-period parameter mapping of the documented
response shape. -/
def sampleParams : List (String × Json) :=
  [("T2M", Json.obj [("20150101", Json.num 25), ("20150102", Json.num 26)])]

/-! Theorems.  Helper lemmas come first; each claim then gets exactly
one theorem, plus a witness or counterexample where called for. -/

/-- Helper: the planning loop produces exactly one job per remaining
row when it does not raise. -/
theorem planJobsFrom_ok_length (df : InTable) (cfg : Config) :
    ∀ (i : Nat) (rs : List (List String)) (jobs : List FetchJob),
      planJobsFrom df cfg i rs = .ok jobs → jobs.length = rs.length := by
  intro i rs
  induction rs generalizing i with
  | nil =>
      intro jobs h
      simp only [planJobsFrom] at h
      cases h
      rfl
  | cons r rs ih =>
      intro jobs h
      simp only [planJobsFrom] at h
      cases hj : planRow df cfg i r with
      | error m => rw [hj] at h; cases h
      | ok j =>
          rw [hj] at h
          cases hjs : planJobsFrom df cfg (i + 1) rs with
          | error m => rw [hjs] at h; cases h
          | ok js =>
              rw [hjs] at h
              cases h
              simp [ih (i + 1) js hjs]

/-- Claim C1: every planned run yields one outcome per job and one job
per input row — no row dropped, none duplicated. -/
theorem outcomes_jobs_rows_counts_match (df : InTable) (cfg : Config)
    (responses : Nat → HttpResult) (jobs : List FetchJob)
    (h : planJobs df cfg = .ok jobs) :
    ((runPool jobs responses).map Prod.fst).length = jobs.length
      ∧ jobs.length = df.rows.length := by
  refine ⟨by simp [runPool], ?_⟩
  exact planJobsFrom_ok_length df cfg 0 df.rows jobs h

/-- Witness for C1 on the two-row sample table. -/
theorem outcomes_jobs_rows_counts_match_witness :
    ((runPool sampleJobs sampleResponses).map Prod.fst).length = sampleJobs.length
      ∧ sampleJobs.length = sampleTable.rows.length :=
  outcomes_jobs_rows_counts_match sampleTable sampleConfig sampleResponses
    sampleJobs rfl

/-- Claim C2: the worker never raises; every execution yields either a
success outcome with a null error, or a failure outcome carrying some
error string — error is null exactly on success. -/
theorem worker_error_null_iff_success (job : FetchJob) (resp : HttpResult) :
    ((download_function job resp).1.success = true
       ∧ (download_function job resp).1.error = none)
    ∨ ((download_function job resp).1.success = false
       ∧ ∃ msg, (download_function job resp).1.error = some msg) := by
  cases resp with
  | failure msg => exact Or.inr ⟨rfl, msg, rfl⟩
  | ok body =>
      cases h : processResponse body job.filepath job.info with
      | error msg => right; simp [download_function, h]
      | ok w => left; simp [download_function, h]

/-- Helper: the validation block succeeds exactly when every one of
the five checks holds. -/
theorem validateConfig_none_iff (df : InTable) (cfg : Config) :
    validateConfig df cfg = none ↔
      ((cfg.lat_col ∈ df.cols ∧ cfg.lon_col ∈ df.cols)
        ∧ ¬ cfg.parameters = []
        ∧ cfg.temporal_resolution ∈ ["daily", "monthly", "climatology"]
        ∧ cfg.spatial_resolution ∈ ["point", "regional"]
        ∧ cfg.community ∈ ["RE", "AG", "SB"]) := by
  unfold validateConfig
  split_ifs with h1 h2 h3 h4 h5 <;>
    simp_all [List.isEmpty_iff]

/-- Claim C4: any invalid option (missing latitude/longitude column,
empty parameter list, out-of-enum resolution or community) raises a
configuration error with an empty side-effect trace — in particular the
output folder is not created. -/
theorem invalid_options_raise_before_side_effects (df : InTable) (cfg : Config)
    (responses : Nat → HttpResult) (fs0 : FileSys)
    (h : ¬ (cfg.lat_col ∈ df.cols ∧ cfg.lon_col ∈ df.cols)
       ∨ cfg.parameters = []
       ∨ ¬ cfg.temporal_resolution ∈ ["daily", "monthly", "climatology"]
       ∨ ¬ cfg.spatial_resolution ∈ ["point", "regional"]
       ∨ ¬ cfg.community ∈ ["RE", "AG", "SB"]) :
    (download_nasa_power_data df cfg responses fs0).1 = []
      ∧ ∃ m, (download_nasa_power_data df cfg responses fs0).2
          = .error (.config m) := by
  cases hm : validateConfig df cfg with
  | none =>
      rw [validateConfig_none_iff] at hm
      tauto
  | some m =>
      unfold download_nasa_power_data
      rw [hm]
      exact ⟨rfl, m, rfl⟩

/-- Witness for C4: an out-of-enum community on the sample table. -/
theorem invalid_options_raise_before_side_effects_witness :
    (download_nasa_power_data sampleTable badCommunityConfig sampleResponses []).1 = []
      ∧ ∃ m, (download_nasa_power_data sampleTable badCommunityConfig sampleResponses []).2
          = .error (.config m) :=
  invalid_options_raise_before_side_effects sampleTable badCommunityConfig
    sampleResponses [] (by decide)

/-- Helper: the effect trace of a call that passes validation,
planning and pool creation: one mkdir, one pool of the capped size, one
GET per job, one write per written file. -/
theorem effect_trace_eq (df : InTable) (cfg : Config)
    (responses : Nat → HttpResult) (fs0 : FileSys) (jobs : List FetchJob)
    (hv : validateConfig df cfg = none)
    (hp : planJobs df cfg = .ok jobs)
    (hpool : 1 ≤ min cfg.processes 5) :
    (download_nasa_power_data df cfg responses fs0).1
      = Effect.mkdir cfg.output_folder :: Effect.pool (min cfg.processes 5)
          :: (jobs.map (fun j => Effect.httpGet j.url)
              ++ ((runPool jobs responses).filterMap Prod.snd).map
                   (fun w => Effect.writeFile w.1)) := by
  have hlt : ¬ (min cfg.processes 5 < 1) := by omega
  unfold download_nasa_power_data
  rw [hv, hp]
  simp only [hlt, if_false]
  split <;> rfl

/-- Claim C6: a completed call creates exactly one worker pool, sized
`min(requested, 5)`, which never exceeds five. -/
theorem pool_size_is_min_requested_five (df : InTable) (cfg : Config)
    (responses : Nat → HttpResult) (fs0 : FileSys) (jobs : List FetchJob)
    (hv : validateConfig df cfg = none)
    (hp : planJobs df cfg = .ok jobs)
    (hpool : 1 ≤ min cfg.processes 5) :
    (∀ n, Effect.pool n ∈ (download_nasa_power_data df cfg responses fs0).1
        → n = min cfg.processes 5)
      ∧ Effect.pool (min cfg.processes 5)
          ∈ (download_nasa_power_data df cfg responses fs0).1
      ∧ min cfg.processes 5 ≤ 5 := by
  rw [effect_trace_eq df cfg responses fs0 jobs hv hp hpool]
  refine ⟨?_, ?_, min_le_right _ _⟩
  · intro n hn
    simp only [List.mem_cons, List.mem_append, List.mem_map] at hn
    rcases hn with hn | hn | ⟨j, _, hj⟩ | ⟨w, _, hw⟩
    · cases hn
    · cases hn; rfl
    · cases hj
    · cases hw
  · simp

/-- Witness for C6: requesting twelve processes yields a pool of
`min(12, 5) = 5`. -/
theorem pool_size_is_min_requested_five_witness :
    (∀ n, Effect.pool n
          ∈ (download_nasa_power_data sampleTable twelveProcConfig sampleResponses []).1
        → n = min twelveProcConfig.processes 5)
      ∧ Effect.pool (min twelveProcConfig.processes 5)
          ∈ (download_nasa_power_data sampleTable twelveProcConfig sampleResponses []).1
      ∧ min twelveProcConfig.processes 5 ≤ 5 :=
  pool_size_is_min_requested_five sampleTable twelveProcConfig sampleResponses []
    sampleJobs rfl rfl (by decide)

/-- Counterexample for C8: with valid options and a zero-row location
table, the call raises a `KeyError` (the empty results frame has no
success column), an error outside the ConfigurationError class. -/
theorem empty_table_raises_non_config_error :
    raisedNonConfig
        (download_nasa_power_data emptyLocTable sampleConfig sampleResponses []).2
      = true
    ∧ (download_nasa_power_data emptyLocTable sampleConfig sampleResponses []).2
        = .error (.runtime "KeyError: success") :=
  ⟨rfl, rfl⟩

/-- Claim C8 (amended): on a location table with at least one row, a
capped pool size of at least one worker, and date cells the planner can
parse, the call never raises outside the ConfigurationError class —
worker failures degrade to failed outcomes instead. -/
theorem call_raises_only_config_error (df : InTable) (cfg : Config)
    (responses : Nat → HttpResult) (fs0 : FileSys)
    (hrows : df.rows ≠ [])
    (hpool : 1 ≤ min cfg.processes 5)
    (hplan : ∀ m, planJobs df cfg ≠ .error m) :
    raisedNonConfig (download_nasa_power_data df cfg responses fs0).2 = false := by
  unfold download_nasa_power_data
  cases hv : validateConfig df cfg with
  | some m => simp [raisedNonConfig, PipeError.isConfig]
  | none =>
      cases hp : planJobs df cfg with
      | error m => exact absurd hp (hplan m)
      | ok jobs =>
          have hlt : ¬ (min cfg.processes 5 < 1) := by omega
          have hlen := planJobsFrom_ok_length df cfg 0 df.rows jobs hp
          have hjobs : jobs ≠ [] := by
            intro hnil
            apply hrows
            apply List.eq_nil_of_length_eq_zero
            rw [← hlen, hnil]
            rfl
          simp only [hlt, if_false]
          split
          · rename_i hemp
            exfalso
            apply hjobs
            apply List.eq_nil_of_length_eq_zero
            have h0 : (runPool jobs responses).map Prod.fst = [] :=
              List.isEmpty_iff.mp hemp
            simpa [runPool] using congrArg List.length h0
          · rfl

/-- Witness for C8 on the two-row sample table. -/
theorem call_raises_only_config_error_witness :
    raisedNonConfig
        (download_nasa_power_data sampleTable sampleConfig sampleResponses []).2
      = false :=
  call_raises_only_config_error sampleTable sampleConfig sampleResponses []
    (by decide) (by decide)
    (fun m h => by
      rw [show planJobs sampleTable sampleConfig = .ok sampleJobs from rfl] at h
      exact Except.noConfusion h)

/-- Helper: concatenation yields exactly the rows of its inputs. -/
theorem concatFrames_rows_length (ts : List DataFrame) :
    (concatFrames ts).rows.length = (ts.map (fun t => t.rows.length)).sum := by
  unfold concatFrames
  rw [List.length_flatten, List.map_map]
  congr 1
  apply List.map_congr_left
  intro t _
  simp [Function.comp]

/-- Claim C7: without consolidation or without any success the call
returns the summary table (one row per outcome) unchanged; with
consolidation and a success, unreadable or empty destination files are
skipped non-fatally, the readable non-empty ones are concatenated
row-wise, and zero readable files produce the empty table. -/
theorem reducer_dispatch_and_consolidation (outcomes : List Outcome)
    (folder : String) (fs : FileSys) (rc : Bool) :
    ((rc = false ∨ outcomes.all (fun o => !o.success) = true) →
        reduceResults outcomes folder fs rc = summaryFrame outcomes
        ∧ (summaryFrame outcomes).rows.length = outcomes.length)
      ∧ (rc = true → outcomes.any (fun o => o.success) = true →
          (reduceResults outcomes folder fs rc).rows.length
            = ((readableTables outcomes folder fs).map (fun t => t.rows.length)).sum
          ∧ (readableTables outcomes folder fs = [] →
              reduceResults outcomes folder fs rc = emptyFrame)) := by
  constructor
  · intro h
    have hcond : ¬ (rc = true ∧ outcomes.any (fun o => o.success) = true) := by
      rintro ⟨hrc, hany⟩
      rcases h with h | h
      · rw [h] at hrc; cases hrc
      · rw [List.any_eq_true] at hany
        obtain ⟨o, ho, hs⟩ := hany
        rw [List.all_eq_true] at h
        have := h o ho
        rw [hs] at this
        cases this
    unfold reduceResults
    rw [if_neg hcond]
    exact ⟨rfl, by simp [summaryFrame]⟩
  · intro hrc hany
    unfold reduceResults
    rw [if_pos ⟨hrc, hany⟩]
    unfold _consolidate_csv_data
    by_cases hrt : readableTables outcomes folder fs = []
    · simp [hrt, emptyFrame]
    · simp [hrt, concatFrames_rows_length]

/-- Witness for C7: one success with a readable two-row file and one
failure, consolidation requested. -/
theorem reducer_dispatch_and_consolidation_witness :
    (reduceResults sampleOutcomes "./nasa_power_data" sampleFs true).rows.length
        = ((readableTables sampleOutcomes "./nasa_power_data" sampleFs).map
            (fun t => t.rows.length)).sum
      ∧ (readableTables sampleOutcomes "./nasa_power_data" sampleFs = [] →
          reduceResults sampleOutcomes "./nasa_power_data" sampleFs true = emptyFrame) :=
  (reducer_dispatch_and_consolidation sampleOutcomes "./nasa_power_data"
    sampleFs true).2 rfl rfl

/-- Helper: bind on `Except` reduces on a success. -/
theorem exceptBind_ok {e a b : Type} (x : a) (f : a → Except e b) :
    (Except.ok x >>= f) = f x := rfl

/-- Helper: bind on `Except` short-circuits on an error. -/
theorem exceptBind_error {e a b : Type} (m : e) (f : a → Except e b) :
    ((Except.error m : Except e a) >>= f) = .error m := rfl

/-- Helper: pure on `Except` is the success constructor. -/
theorem exceptPure_eq_ok {e a : Type} (x : a) :
    (pure x : Except e a) = .ok x := rfl

/-- Counterexample for C3: a response that parses as JSON and carries
`properties.parameter`, but with a string rather than a mapping there,
makes the DataFrame constructor raise, so the outcome is a failure —
not the success the claim asserts for every response lacking a nested
`properties.parameter` mapping. -/
theorem nonmapping_parameter_fails_counterexample :
    (download_function sampleJob (.ok strParamResponse)).1.success = false
    ∧ (download_function sampleJob (.ok strParamResponse)).1.error
        = some "ValueError: DataFrame constructor not properly called"
    ∧ (download_function sampleJob (.ok strParamResponse)).2 = none :=
  ⟨rfl, rfl, rfl⟩

/-- Claim C3 (amended): when the membership test fails — the top-level
object has no `properties` key, or its `properties` object has no
`parameter` key — the worker reports success with a null error and
writes no file. -/
theorem missing_parameter_key_silent_success (job : FetchJob)
    (fields : List (String × Json))
    (h : fields.any (fun kv => kv.1 = "properties") = false
       ∨ ∃ pf, fields.find? (fun kv => kv.1 = "properties")
                 = some ("properties", Json.obj pf)
            ∧ pf.any (fun kv => kv.1 = "parameter") = false) :
    download_function job (.ok (Json.obj fields))
      = ({ info := job.info, success := true, error := none }, none) := by
  have hpr : processResponse (Json.obj fields) job.filepath job.info = .ok none := by
    rcases h with h | ⟨pf, hf, hpf⟩
    · unfold processResponse
      simp [pyContains, h, exceptBind_ok, exceptBind_error, exceptPure_eq_ok]
    · have hany : fields.any (fun kv => kv.1 = "properties") = true := by
        rw [List.any_eq_true]
        exact ⟨_, List.mem_of_find?_eq_some hf, by simp⟩
      unfold processResponse
      simp [pyContains, pyGetItem, hany, hf, hpf, exceptBind_ok, exceptBind_error,
        exceptPure_eq_ok]
  simp [download_function, hpr]

/-- Witness for C3 on a document without a `properties` key. -/
theorem missing_parameter_key_silent_success_witness :
    download_function sampleJob (.ok (Json.obj [("messages", Json.str "no data")]))
      = ({ info := sampleJob.info, success := true, error := none }, none) :=
  missing_parameter_key_silent_success sampleJob [("messages", Json.str "no data")]
    (Or.inl (by decide))

/-- Helper: reading every position of a list back by index is the
identity. -/
theorem range_map_getD {α : Type} (l : List α) (d : α) :
    (List.range l.length).map (fun i => l.getD i d) = l := by
  apply List.ext_getElem
  · simp
  · intro i h1 h2
    simp only [List.getElem_map, List.getElem_range]
    rw [List.getD_eq_getElem]

/-- Helper: an existence test on a mapped list tests the composed
predicate. -/
theorem any_map_poly {α β : Type} (f : α → β) (l : List α) (p : β → Bool) :
    (l.map f).any p = l.any (fun a => p (f a)) := by
  induction l with
  | nil => rfl
  | cons a l ih => simp [ih]

/-- Helper: scalar assignment under a fresh name appends the
broadcast column. -/
theorem setConst_fresh (f : ColFrame) (name v : String)
    (h : f.cols.any (fun c => c.1 = name) = false) :
    f.setConst name v
      = { f with cols := f.cols ++ [(name, List.replicate f.idx.length v)] } := by
  simp [ColFrame.setConst, h]

/-- Helper: vector assignment under a fresh name appends the
column. -/
theorem setVec_fresh (f : ColFrame) (name : String) (vs : List String)
    (h : f.cols.any (fun c => c.1 = name) = false) :
    f.setVec name vs = { f with cols := f.cols ++ [(name, vs)] } := by
  simp [ColFrame.setVec, h]

/-- Helper: a reserved name never occurs among variables that avoid
the reserved set. -/
theorem params_any_name_false (params : List (String × Json))
    (hres : params.all (fun kv => ¬ kv.1 ∈ reservedCols) = true)
    (nm : String) (hnm : nm ∈ reservedCols) :
    params.any (fun kv => kv.1 = nm) = false := by
  rw [List.any_eq_false]
  intro kv hkv hp
  have h1 := List.all_eq_true.mp hres kv hkv
  simp only [decide_eq_true_eq] at h1 hp
  exact h1 (hp ▸ hnm)

/-- Helper: column selection keeps, in order, the requested names that
resolve. -/
theorem selectCols_names (f : ColFrame) (ns : List String) :
    (f.selectCols ns).names
      = ns.filter (fun n => (f.cols.find? (fun c => c.1 = n)).isSome) := by
  unfold ColFrame.selectCols ColFrame.names
  induction ns with
  | nil => rfl
  | cons n ns ih =>
      simp only [List.filterMap_cons, List.filter_cons]
      cases h : f.cols.find? (fun c => c.1 = n) with
      | none => simpa [h] using ih
      | some c => simpa [h] using ih

/-- Helper: on a frame free of metadata names, the metadata step
appends the three broadcast columns at the end. -/
theorem attachMeta_fresh (f : ColFrame) (info : RowInfo)
    (h1 : f.cols.any (fun c => c.1 = "latitude") = false)
    (h2 : f.cols.any (fun c => c.1 = "longitude") = false)
    (h3 : f.cols.any (fun c => c.1 = "identifier") = false) :
    attachMeta f info = { f with cols := f.cols
      ++ [("latitude", List.replicate f.idx.length info.latitude),
          ("longitude", List.replicate f.idx.length info.longitude),
          ("identifier", List.replicate f.idx.length info.identifier)] } := by
  simp [attachMeta, ColFrame.setConst, List.any_append, h1, h2, h3]

/-- Helper: with a non-empty index whose keys all parse, the date step
appends a parsed `date` column. -/
theorem addDateOrPeriod_date (f : ColFrame)
    (hidx : f.idx ≠ [])
    (hparse : f.idx.all (fun k => (parseCompactDate k).isSome) = true)
    (hfresh : f.cols.any (fun c => c.1 = "date") = false) :
    addDateOrPeriod f = { f with cols := f.cols
      ++ [("date", f.idx.map (fun k => isoOfDate ((parseCompactDate k).getD (0, 0, 0))))] } := by
  have hpos : 0 < f.idx.length := List.length_pos.mpr hidx
  simp [addDateOrPeriod, hpos, hparse, ColFrame.setVec, hfresh]

/-- Helper: with a non-empty index and some unparseable key, the date
step appends a verbatim `period` column. -/
theorem addDateOrPeriod_period (f : ColFrame)
    (hidx : f.idx ≠ [])
    (hparse : f.idx.all (fun k => (parseCompactDate k).isSome) = false)
    (hfresh : f.cols.any (fun c => c.1 = "period") = false) :
    addDateOrPeriod f = { f with cols := f.cols ++ [("period", f.idx)] } := by
  have hpos : 0 < f.idx.length := List.length_pos.mpr hidx
  simp [addDateOrPeriod, hpos, hparse, ColFrame.setVec, hfresh]

/-- Helper: on a frame of the shape the worker builds (reserved-free
variable columns, then the three metadata columns and one of
date/period), the reorder step puts the base columns first and keeps
the variable columns in order. -/
theorem reorderCols_spec (idx : List String) (cols0 : List (String × List String))
    (la lo idv : List String) (dp : String) (vs : List String)
    (hfresh : ∀ nm ∈ reservedCols, cols0.any (fun c => c.1 = nm) = false)
    (hdp : dp = "date" ∨ dp = "period") :
    (∃ rest, reorderCols ⟨idx, cols0
        ++ [("latitude", la), ("longitude", lo), ("identifier", idv), (dp, vs)]⟩
      = ⟨idx, ("identifier", idv) :: ("latitude", la) :: ("longitude", lo)
              :: (dp, vs) :: rest⟩)
    ∧ (reorderCols ⟨idx, cols0
        ++ [("latitude", la), ("longitude", lo), ("identifier", idv), (dp, vs)]⟩).names
      = "identifier" :: "latitude" :: "longitude" :: dp :: cols0.map Prod.fst := by
  have hdpres : dp ∈ reservedCols := by
    rcases hdp with h | h <;> simp [h, reservedCols]
  have hmem0 : ∀ n ∈ cols0.map Prod.fst, ∀ nm ∈ reservedCols, ¬ n = nm := by
    intro n hn nm hnm he
    rw [List.mem_map] at hn
    obtain ⟨c, hc, hcn⟩ := hn
    have hx := hfresh nm hnm
    rw [List.any_eq_false] at hx
    exact hx c hc (by simp [hcn, he])
  have hnone : ∀ nm ∈ reservedCols, cols0.find? (fun c => c.1 = nm) = none := by
    intro nm hnm
    rw [List.find?_eq_none]
    intro c hc
    have hx := hfresh nm hnm
    rw [List.any_eq_false] at hx
    exact hx c hc
  have hnd : ¬ "date" ∈ cols0.map Prod.fst := fun hm =>
    hmem0 _ hm "date" (by simp [reservedCols]) rfl
  have hnp : ¬ "period" ∈ cols0.map Prod.fst := fun hm =>
    hmem0 _ hm "period" (by simp [reservedCols]) rfl
  have hnames : (⟨idx, cols0
      ++ [("latitude", la), ("longitude", lo), ("identifier", idv), (dp, vs)]⟩
        : ColFrame).names
      = cols0.map Prod.fst ++ ["latitude", "longitude", "identifier", dp] := by
    simp [ColFrame.names]
  have hbase : baseColsOf ⟨idx, cols0
      ++ [("latitude", la), ("longitude", lo), ("identifier", idv), (dp, vs)]⟩
      = ["identifier", "latitude", "longitude", dp] := by
    rcases hdp with h | h <;> subst h <;>
      simp [baseColsOf, hnames, hnd, hnp]
  have hsome0 : ∀ n ∈ cols0.map Prod.fst,
      ((cols0 ++ [("latitude", la), ("longitude", lo), ("identifier", idv), (dp, vs)]).find?
        (fun c => c.1 = n)).isSome = true := by
    intro n hn
    rw [List.mem_map] at hn
    obtain ⟨c, hc, hcn⟩ := hn
    rw [List.find?_isSome]
    exact ⟨c, List.mem_append_left _ hc, by simp [hcn]⟩
  have hfilter : ((⟨idx, cols0
      ++ [("latitude", la), ("longitude", lo), ("identifier", idv), (dp, vs)]⟩
        : ColFrame).names).filter
      (fun c => ¬ c ∈ baseColsOf ⟨idx, cols0
        ++ [("latitude", la), ("longitude", lo), ("identifier", idv), (dp, vs)]⟩)
      = cols0.map Prod.fst := by
    rw [hnames, hbase, List.filter_append]
    have hh1 : (cols0.map Prod.fst).filter
        (fun c => ¬ c ∈ (["identifier", "latitude", "longitude", dp] : List String))
        = cols0.map Prod.fst := by
      rw [List.filter_eq_self]
      intro n hn
      simp only [List.mem_cons, List.not_mem_nil, or_false, decide_eq_true_eq]
      push_neg
      refine ⟨?_, ?_, ?_, ?_⟩
      · exact hmem0 n hn "identifier" (by simp [reservedCols])
      · exact hmem0 n hn "latitude" (by simp [reservedCols])
      · exact hmem0 n hn "longitude" (by simp [reservedCols])
      · exact hmem0 n hn dp hdpres
    have hh2 : (["latitude", "longitude", "identifier", dp] : List String).filter
        (fun c => ¬ c ∈ (["identifier", "latitude", "longitude", dp] : List String))
        = [] := by
      simp [List.filter_cons]
    rw [hh1, hh2, List.append_nil]
  have hf_lat : (cols0
      ++ [("latitude", la), ("longitude", lo), ("identifier", idv), (dp, vs)]).find?
        (fun c => c.1 = "latitude") = some ("latitude", la) := by
    rw [List.find?_append, hnone "latitude" (by simp [reservedCols])]
    simp
  have hf_lon : (cols0
      ++ [("latitude", la), ("longitude", lo), ("identifier", idv), (dp, vs)]).find?
        (fun c => c.1 = "longitude") = some ("longitude", lo) := by
    rw [List.find?_append, hnone "longitude" (by simp [reservedCols])]
    simp
  have hf_id : (cols0
      ++ [("latitude", la), ("longitude", lo), ("identifier", idv), (dp, vs)]).find?
        (fun c => c.1 = "identifier") = some ("identifier", idv) := by
    rw [List.find?_append, hnone "identifier" (by simp [reservedCols])]
    simp
  have hf_dp : (cols0
      ++ [("latitude", la), ("longitude", lo), ("identifier", idv), (dp, vs)]).find?
        (fun c => c.1 = dp) = some (dp, vs) := by
    rcases hdp with h | h <;> subst h <;>
      (rw [List.find?_append, hnone _ (by simp [reservedCols])]; simp)
  constructor
  · refine ⟨(cols0.map Prod.fst).filterMap (fun n =>
      ((cols0 ++ [("latitude", la), ("longitude", lo), ("identifier", idv), (dp, vs)]).find?
        (fun c => c.1 = n)).map (fun c => (n, c.2))), ?_⟩
    unfold reorderCols
    rw [hfilter, hbase]
    unfold ColFrame.selectCols
    rw [List.filterMap_append]
    simp only [List.filterMap_cons, List.filterMap_nil, hf_id, hf_lat, hf_lon, hf_dp,
      Option.map_some]
    simp [List.filterMap_map]
  · unfold reorderCols
    rw [hfilter, hbase, selectCols_names, List.filter_append]
    have hk1 : (["identifier", "latitude", "longitude", dp] : List String).filter
        (fun n => ((cols0
          ++ [("latitude", la), ("longitude", lo), ("identifier", idv), (dp, vs)]).find?
            (fun c => c.1 = n)).isSome)
        = ["identifier", "latitude", "longitude", dp] := by
      simp [List.filter_cons, hf_id, hf_lat, hf_lon, hf_dp]
    have hk2 : (cols0.map Prod.fst).filter
        (fun n => ((cols0
          ++ [("latitude", la), ("longitude", lo), ("identifier", idv), (dp, vs)]).find?
            (fun c => c.1 = n)).isSome)
        = cols0.map Prod.fst := by
      rw [List.filter_eq_self]
      exact hsome0
    rw [hk1, hk2]
    rfl

/-- Claim C5: every file the worker writes for a response of the
documented shape has columns identifier, latitude, longitude, then
exactly one of date (when every period key parses as a compact
YYYYMMDD date, holding parsed dates) or period (holding the raw keys
verbatim), then the variable columns in response order; the fourth
cell of each row carries the date or raw period key of that row. -/
theorem written_file_column_order (job : FetchJob) (params : List (String × Json))
    (hobj : params.all (fun kv => match kv.2 with | .obj _ => true | _ => false) = true)
    (hres : params.all (fun kv => ¬ kv.1 ∈ reservedCols) = true)
    (hne : params ≠ [])
    (hkeys : unionKeys params ≠ []) :
    ∃ w, download_function job (.ok (nasaResponse params))
        = ({ info := job.info, success := true, error := none },
           some (job.filepath, w))
      ∧ w.header
          = ["identifier", "latitude", "longitude"]
            ++ [(if (unionKeys params).all (fun k => (parseCompactDate k).isSome)
                 then "date" else "period")]
            ++ params.map Prod.fst
      ∧ w.rows.map (fun r => r.getD 3 "")
          = (if (unionKeys params).all (fun k => (parseCompactDate k).isSome)
             then (unionKeys params).map
                    (fun k => isoOfDate ((parseCompactDate k).getD (0, 0, 0)))
             else unionKeys params) := by
  have hany0 : ∀ nm ∈ reservedCols,
      (params.map (fun kv => (kv.1, (unionKeys params).map (cellOfParam kv)))).any
        (fun c => c.1 = nm) = false := by
    intro nm hnm
    rw [any_map_poly]
    exact params_any_name_false params hres nm hnm
  have hfst : (params.map (fun kv =>
      (kv.1, (unionKeys params).map (cellOfParam kv)))).map Prod.fst
      = params.map Prod.fst := by
    rw [List.map_map]; rfl
  have hdfj : dataFrameOfJson (Json.obj params)
      = .ok ⟨unionKeys params,
             params.map (fun kv => (kv.1, (unionKeys params).map (cellOfParam kv)))⟩ := by
    simp [dataFrameOfJson, hobj]
  have hnonempty : (⟨unionKeys params,
      params.map (fun kv => (kv.1, (unionKeys params).map (cellOfParam kv)))⟩
        : ColFrame).isEmpty = false := by
    simp [ColFrame.isEmpty]
    exact ⟨hkeys, hne⟩
  have hpr : processResponse (nasaResponse params) job.filepath job.info
      = .ok (some (job.filepath,
          (reorderCols (addDateOrPeriod (attachMeta
            ⟨unionKeys params,
             params.map (fun kv => (kv.1, (unionKeys params).map (cellOfParam kv)))⟩
            job.info))).toCsv)) := by
    unfold processResponse
    simp [nasaResponse, pyContains, pyGetItem, hdfj, hnonempty,
      exceptBind_ok, exceptBind_error, exceptPure_eq_ok]
  have hmeta : attachMeta
      ⟨unionKeys params,
       params.map (fun kv => (kv.1, (unionKeys params).map (cellOfParam kv)))⟩ job.info
      = ⟨unionKeys params, (params.map (fun kv => (kv.1, (unionKeys params).map (cellOfParam kv))))
          ++ [("latitude", List.replicate (unionKeys params).length job.info.latitude),
              ("longitude", List.replicate (unionKeys params).length job.info.longitude),
              ("identifier", List.replicate (unionKeys params).length job.info.identifier)]⟩ := by
    rw [attachMeta_fresh _ _ (hany0 "latitude" (by simp [reservedCols]))
      (hany0 "longitude" (by simp [reservedCols]))
      (hany0 "identifier" (by simp [reservedCols]))]
  by_cases hparse : (unionKeys params).all (fun k => (parseCompactDate k).isSome) = true
  case pos =>
    have hadd : addDateOrPeriod ⟨unionKeys params, (params.map (fun kv => (kv.1, (unionKeys params).map (cellOfParam kv))))
        ++ [("latitude", List.replicate (unionKeys params).length job.info.latitude),
            ("longitude", List.replicate (unionKeys params).length job.info.longitude),
            ("identifier", List.replicate (unionKeys params).length job.info.identifier)]⟩
        = ⟨unionKeys params, (params.map (fun kv => (kv.1, (unionKeys params).map (cellOfParam kv))))
          ++ [("latitude", List.replicate (unionKeys params).length job.info.latitude),
              ("longitude", List.replicate (unionKeys params).length job.info.longitude),
              ("identifier", List.replicate (unionKeys params).length job.info.identifier),
              ("date", ((unionKeys params).map (fun k => isoOfDate ((parseCompactDate k).getD (0, 0, 0)))))]⟩ := by
      rw [addDateOrPeriod_date _ hkeys hparse (by
        simp only [List.any_append, hany0 "date" (by simp [reservedCols])]
        simp)]
      simp [List.append_assoc]
    obtain ⟨⟨rest, hre⟩, hnm⟩ := reorderCols_spec (unionKeys params) (params.map (fun kv => (kv.1, (unionKeys params).map (cellOfParam kv))))
      (List.replicate (unionKeys params).length job.info.latitude)
      (List.replicate (unionKeys params).length job.info.longitude)
      (List.replicate (unionKeys params).length job.info.identifier)
      "date" ((unionKeys params).map (fun k => isoOfDate ((parseCompactDate k).getD (0, 0, 0)))) hany0 (Or.inl rfl)
    refine ⟨(reorderCols (addDateOrPeriod (attachMeta
        ⟨unionKeys params,
         params.map (fun kv => (kv.1, (unionKeys params).map (cellOfParam kv)))⟩
        job.info))).toCsv, by simp [download_function, hpr], ?_, ?_⟩
    · show (reorderCols (addDateOrPeriod (attachMeta _ _))).toCsv.header = _
      rw [hmeta, hadd]
      show (reorderCols _).names = _
      rw [hnm, hfst]
      simp [hparse]
    · show ((reorderCols (addDateOrPeriod (attachMeta _ _))).toCsv.rows).map _ = _
      rw [hmeta, hadd, hre]
      simp only [ColFrame.toCsv, List.map_map]
      simp only [Function.comp_def, List.map_cons, List.getD_cons_succ,
        List.getD_cons_zero]
      rw [show (unionKeys params).length = (((unionKeys params).map (fun k => isoOfDate ((parseCompactDate k).getD (0, 0, 0)))) : List String).length from (by simp)]
      rw [range_map_getD]
      simp [hparse]

  case neg =>
    have hparsef : (unionKeys params).all (fun k => (parseCompactDate k).isSome) = false :=
      Bool.eq_false_iff.mpr hparse
    replace hparse := hparsef

    have hadd : addDateOrPeriod ⟨unionKeys params, (params.map (fun kv => (kv.1, (unionKeys params).map (cellOfParam kv))))
        ++ [("latitude", List.replicate (unionKeys params).length job.info.latitude),
            ("longitude", List.replicate (unionKeys params).length job.info.longitude),
            ("identifier", List.replicate (unionKeys params).length job.info.identifier)]⟩
        = ⟨unionKeys params, (params.map (fun kv => (kv.1, (unionKeys params).map (cellOfParam kv))))
          ++ [("latitude", List.replicate (unionKeys params).length job.info.latitude),
              ("longitude", List.replicate (unionKeys params).length job.info.longitude),
              ("identifier", List.replicate (unionKeys params).length job.info.identifier),
              ("period", (unionKeys params))]⟩ := by
      rw [addDateOrPeriod_period _ hkeys hparsef (by
        simp only [List.any_append, hany0 "period" (by simp [reservedCols])]
        simp)]
      simp [List.append_assoc]
    obtain ⟨⟨rest, hre⟩, hnm⟩ := reorderCols_spec (unionKeys params) (params.map (fun kv => (kv.1, (unionKeys params).map (cellOfParam kv))))
      (List.replicate (unionKeys params).length job.info.latitude)
      (List.replicate (unionKeys params).length job.info.longitude)
      (List.replicate (unionKeys params).length job.info.identifier)
      "period" (unionKeys params) hany0 (Or.inr rfl)
    refine ⟨(reorderCols (addDateOrPeriod (attachMeta
        ⟨unionKeys params,
         params.map (fun kv => (kv.1, (unionKeys params).map (cellOfParam kv)))⟩
        job.info))).toCsv, by simp [download_function, hpr], ?_, ?_⟩
    · show (reorderCols (addDateOrPeriod (attachMeta _ _))).toCsv.header = _
      rw [hmeta, hadd]
      show (reorderCols _).names = _
      rw [hnm, hfst]
      simp [hparse]
    · show ((reorderCols (addDateOrPeriod (attachMeta _ _))).toCsv.rows).map _ = _
      rw [hmeta, hadd, hre]
      simp only [ColFrame.toCsv, List.map_map]
      simp only [Function.comp_def, List.map_cons, List.getD_cons_succ,
        List.getD_cons_zero]
      rw [show (unionKeys params).length = ((unionKeys params) : List String).length from rfl]
      rw [range_map_getD]
      simp [hparse]

/-- Witness for C5: one variable with two compact date keys. -/
theorem written_file_column_order_witness :
    ∃ w, download_function sampleJob (.ok (nasaResponse sampleParams))
        = ({ info := sampleJob.info, success := true, error := none },
           some (sampleJob.filepath, w))
      ∧ w.header
          = ["identifier", "latitude", "longitude"]
            ++ [(if (unionKeys sampleParams).all (fun k => (parseCompactDate k).isSome)
                 then "date" else "period")]
            ++ sampleParams.map Prod.fst
      ∧ w.rows.map (fun r => r.getD 3 "")
          = (if (unionKeys sampleParams).all (fun k => (parseCompactDate k).isSome)
             then (unionKeys sampleParams).map
                    (fun k => isoOfDate ((parseCompactDate k).getD (0, 0, 0)))
             else unionKeys sampleParams) :=
  written_file_column_order sampleJob sampleParams rfl (by decide)
    (by simp [sampleParams]) (by decide)

/-- Helper: zipping a list with a mapped image of itself is a map. -/
theorem zipWith_map_self {α β γ : Type} (f : α → β → γ) (g : α → β) (l : List α) :
    List.zipWith f l (l.map g) = l.map (fun a => f a (g a)) := by
  induction l with
  | nil => rfl
  | cons a l ih => simp [ih]

/-- Helper: no index is found for an absent element. -/
theorem findIdx?_none_of_not_mem (l : List String) (a : String) (h : ¬ a ∈ l) :
    l.findIdx? (fun x => x = a) = none := by
  rw [List.findIdx?_eq_none_iff]
  intro x hx
  refine Bool.eq_false_iff.mpr ?_
  simp only [ne_eq, decide_eq_true_eq]
  intro he
  exact h (he ▸ hx)

/-- Helper: a column appended to a list that lacks it is found at the
old length. -/
theorem findIdx?_append_singleton (l : List String) (a : String) (h : ¬ a ∈ l) :
    (l ++ [a]).findIdx? (fun x => x = a) = some l.length := by
  induction l with
  | nil => simp [List.findIdx?]
  | cons b l ih =>
      have hb : ¬ (b = a) := fun he => h (he ▸ List.mem_cons_self b l)
      simp [List.findIdx?_cons, hb, List.findIdx?_succ,
        ih (fun hm => h (List.mem_cons_of_mem b hm))]

/-- Helper: the appended cell sits right past the original row. -/
theorem getD_append_singleton {α : Type} (r : List α) (v d : α) :
    (r ++ [v]).getD r.length d = v := by
  simp [List.getD_append_right, List.getD]

/-- Helper: erasing the appended cell restores the original row. -/
theorem eraseIdx_append_singleton {α : Type} (r : List α) (v : α) :
    (r ++ [v]).eraseIdx r.length = r := by
  induction r with
  | nil => rfl
  | cons a r ih => simp [List.eraseIdx, ih]

/-- Helper: on duplicate-free columns, erasing the found index of a
name is filtering that name out. -/
theorem eraseIdx_eq_filter_of_nodup (l : List String) (a : String) :
    l.Nodup → ∀ k, l.findIdx? (fun c => c = a) = some k →
      l.eraseIdx k = l.filter (fun c => ¬ c = a) := by
  induction l with
  | nil => intro _ k hk; simp [List.findIdx?] at hk
  | cons b l ih =>
      intro hnd k hk
      rw [List.findIdx?_cons] at hk
      by_cases hb : b = a
      · rw [if_pos (by simp [hb])] at hk
        cases hk
        subst hb
        have hnotmem : ¬ b ∈ l := (List.nodup_cons.mp hnd).1
        simp only [List.eraseIdx]
        rw [List.filter_cons_of_neg (by simp)]
        rw [List.filter_eq_self.mpr]
        intro x hx
        simp only [decide_eq_true_eq]
        intro he
        exact hnotmem (he ▸ hx)
      · rw [if_neg (by simp [hb])] at hk
        rw [List.findIdx?_succ] at hk
        cases hj : l.findIdx? (fun c => c = a) with
        | none => rw [hj] at hk; simp at hk
        | some j =>
            rw [hj] at hk
            simp at hk
            subst hk
            simp only [List.eraseIdx]
            rw [List.filter_cons_of_pos (by simp [hb])]
            rw [ih (List.nodup_cons.mp hnd).2 j hj]

/-- Claim C9: on a table with a CVEGEO column and no pre-existing edo
column, the utility returns exactly the rows whose CVEGEO suffix of
three characters equals the state code, with no derived column in the
result. -/
theorem load_centroid_filters (df : CsvTable) (state : String)
    (hc : "CVEGEO" ∈ df.cols)
    (hedo : ¬ "edo" ∈ df.cols)
    (hwf : ∀ r ∈ df.rows, r.length = df.cols.length) :
    load_centroid_data df state = .ok
      { cols := df.cols
        rows := df.rows.filter (fun r =>
          (getCellOpt df.cols r "CVEGEO").map (fun s => s.takeRight 3) = some state) } := by
  unfold load_centroid_data
  rw [if_pos hc]
  have hfnone : df.cols.findIdx? (fun c => c = "edo") = none :=
    findIdx?_none_of_not_mem _ _ hedo
  have hfidx : (df.cols ++ ["edo"]).findIdx? (fun c => c = "edo")
      = some df.cols.length :=
    findIdx?_append_singleton _ _ hedo
  simp only [derivedEdo, CsvTable.setCol, hfnone]
  rw [zipWith_map_self]
  have hcell : ∀ r ∈ df.rows,
      getCellOpt (df.cols ++ ["edo"])
        (r ++ [(getCellOpt df.cols r "CVEGEO").map (fun s => s.takeRight 3)]) "edo"
      = (getCellOpt df.cols r "CVEGEO").map (fun s => s.takeRight 3) := by
    intro r hr
    unfold getCellOpt
    rw [hfidx]
    rw [← hwf r hr]
    exact getD_append_singleton r _ none
  rw [List.filter_map]
  have hfilter : df.rows.filter
      ((fun r => decide (getCellOpt (df.cols ++ ["edo"]) r "edo" = some state))
        ∘ (fun r => r ++ [(getCellOpt df.cols r "CVEGEO").map (fun s => s.takeRight 3)]))
      = df.rows.filter (fun r =>
          (getCellOpt df.cols r "CVEGEO").map (fun s => s.takeRight 3) = some state) := by
    apply List.filter_congr
    intro r hr
    simp only [Function.comp_apply]
    rw [hcell r hr]
  rw [hfilter]
  simp only [CsvTable.dropCol, hfidx]
  have herase : (df.cols ++ ["edo"]).eraseIdx df.cols.length = df.cols :=
    eraseIdx_append_singleton _ _
  rw [herase, List.map_map]
  have hrows : (df.rows.filter (fun r =>
        (getCellOpt df.cols r "CVEGEO").map (fun s => s.takeRight 3) = some state)).map
      ((fun r => r.eraseIdx df.cols.length)
        ∘ (fun r => r ++ [(getCellOpt df.cols r "CVEGEO").map (fun s => s.takeRight 3)]))
      = df.rows.filter (fun r =>
          (getCellOpt df.cols r "CVEGEO").map (fun s => s.takeRight 3) = some state) := by
    have hcg : ∀ r ∈ df.rows.filter (fun r =>
        (getCellOpt df.cols r "CVEGEO").map (fun s => s.takeRight 3) = some state),
        ((fun r => r.eraseIdx df.cols.length)
          ∘ (fun r => r ++ [(getCellOpt df.cols r "CVEGEO").map (fun s => s.takeRight 3)])) r
          = id r := by
      intro r hr
      have hmem := List.mem_of_mem_filter hr
      simp only [Function.comp_apply, id]
      rw [← hwf r hmem]
      exact eraseIdx_append_singleton r _
    rw [List.map_congr_left hcg, List.map_id]
  rw [hrows]

/-- Claim C10: the returned columns are exactly the input columns
minus edo, and when the input already has an edo column its values are
overwritten before filtering and then dropped — replacing them with
arbitrary values never changes the result, so the original edo data is
silently lost. -/
theorem load_centroid_overwrites_edo (df : CsvTable) (state : String)
    (vals : List (Option String))
    (hc : "CVEGEO" ∈ df.cols)
    (hedo : "edo" ∈ df.cols)
    (hnodup : df.cols.Nodup)
    (hlen : vals.length = df.rows.length) :
    (∀ out, load_centroid_data df state = .ok out →
        out.cols = df.cols.filter (fun c => ¬ c = "edo"))
    ∧ load_centroid_data (df.setCol "edo" vals) state
        = load_centroid_data df state := by
  have hks : (df.cols.findIdx? (fun c => c = "edo")).isSome = true := by
    rw [List.findIdx?_isSome, List.any_eq_true]
    exact ⟨"edo", hedo, by simp⟩
  obtain ⟨k, hk⟩ := Option.isSome_iff_exists.mp hks
  obtain ⟨hklt, hkp, _⟩ := List.findIdx?_eq_some_iff_getElem.mp hk
  have hkedo : df.cols[k] = "edo" := by simpa using hkp
  constructor
  · intro out hout
    unfold load_centroid_data at hout
    rw [if_pos hc] at hout
    simp only [CsvTable.setCol, hk, CsvTable.dropCol] at hout
    cases hout
    exact eraseIdx_eq_filter_of_nodup df.cols "edo" hnodup k hk
  · have hcolsq : (df.setCol "edo" vals).cols = df.cols := by
      simp [CsvTable.setCol, hk]
    have hrowsq : (df.setCol "edo" vals).rows
        = df.rows.zipWith (fun r v => r.set k v) vals := by
      simp [CsvTable.setCol, hk]
    have his : (df.cols.findIdx? (fun c => c = "CVEGEO")).isSome = true := by
      rw [List.findIdx?_isSome, List.any_eq_true]
      exact ⟨"CVEGEO", hc, by simp⟩
    obtain ⟨i, hi⟩ := Option.isSome_iff_exists.mp his
    obtain ⟨hilt, hip, _⟩ := List.findIdx?_eq_some_iff_getElem.mp hi
    have hine : k ≠ i := by
      intro he
      subst he
      rw [hkedo] at hip
      simp at hip
    have he_inv : ∀ (r : List (Option String)) (v : Option String),
        getCellOpt df.cols (r.set k v) "CVEGEO" = getCellOpt df.cols r "CVEGEO" := by
      intro r v
      unfold getCellOpt
      rw [hi]
      simp [List.getD, List.getElem?_set_ne hine]
    have hde : derivedEdo (df.setCol "edo" vals) = derivedEdo df := by
      unfold derivedEdo
      rw [hcolsq, hrowsq]
      have hmapinv : ∀ (rows : List (List (Option String))) (vals2 : List (Option String)),
          vals2.length = rows.length →
          (List.zipWith (fun r v => r.set k v) rows vals2).map (fun r =>
            (getCellOpt df.cols r "CVEGEO").map (fun s => s.takeRight 3))
          = rows.map (fun r =>
              (getCellOpt df.cols r "CVEGEO").map (fun s => s.takeRight 3)) := by
        intro rows
        induction rows with
        | nil => intro vals2 _; simp
        | cons r rows ih =>
            intro vals2 hlen2
            cases vals2 with
            | nil => simp at hlen2
            | cons v vals2 =>
                simp only [List.zipWith_cons_cons, List.map_cons]
                rw [he_inv r v, ih vals2 (by simpa using hlen2)]
      exact hmapinv df.rows vals hlen
    have habsorb : ∀ (rows : List (List (Option String)))
        (vals2 ws : List (Option String)), vals2.length = rows.length →
        List.zipWith (fun r v => r.set k v)
          (List.zipWith (fun r v => r.set k v) rows vals2) ws
        = List.zipWith (fun r v => r.set k v) rows ws := by
      intro rows
      induction rows with
      | nil => intro vals2 ws _; simp
      | cons r rows ih =>
          intro vals2 ws hlen2
          cases vals2 with
          | nil => simp at hlen2
          | cons v vals2 =>
              cases ws with
              | nil => simp
              | cons w ws =>
                  simp only [List.zipWith_cons_cons]
                  rw [List.set_set, ih vals2 ws (by simpa using hlen2)]
    have hXeq : (df.setCol "edo" vals).setCol "edo" (derivedEdo (df.setCol "edo" vals))
        = df.setCol "edo" (derivedEdo df) := by
      rw [hde]
      simp only [CsvTable.setCol, hcolsq, hk]
      rw [habsorb df.rows vals (derivedEdo df) hlen]
    unfold load_centroid_data
    rw [hcolsq, if_pos hc, hXeq, if_pos hc]

/-- Witness for C9 on the three-row centroid sample. -/
theorem load_centroid_filters_witness :
    load_centroid_data sampleCsv "005" = .ok
      { cols := sampleCsv.cols
        rows := sampleCsv.rows.filter (fun r =>
          (getCellOpt sampleCsv.cols r "CVEGEO").map (fun s => s.takeRight 3)
            = some "005") } :=
  load_centroid_filters sampleCsv "005" (by decide) (by decide) (by decide)

/-- Witness for C10 on the centroid sample that carries an edo
column. -/
theorem load_centroid_overwrites_edo_witness :
    (∀ out, load_centroid_data sampleCsvWithEdo "005" = .ok out →
        out.cols = sampleCsvWithEdo.cols.filter (fun c => ¬ c = "edo"))
    ∧ load_centroid_data (sampleCsvWithEdo.setCol "edo" [some "x", some "y"]) "005"
        = load_centroid_data sampleCsvWithEdo "005" :=
  load_centroid_overwrites_edo sampleCsvWithEdo "005" [some "x", some "y"]
    (by decide) (by decide) (by decide) rfl

end Climex
